import Mathlib

/-!
Verification of the charon SOCKS5 proxy (Rust) against its natural-language
specification.  The wire codecs (`SocksAddr`, `UserPassAuth`,
`HandshakeRequest`, `Request`, `Reply` in `src/protocol.rs`), the client's
connection-reply handling (`src/client.rs`), and the server connection handler
(`handle_client` / `handle_connect` in `src/server.rs`) are shallowly embedded:
byte streams become lists of bytes, reads return the parsed value together
with the unconsumed remainder (or an error together with the remainder), and
writes return the produced bytes together with the success/failure outcome.
External effects of the server (DNS lookup, upstream dial, local-address
introspection, the relay loop) are parameters of the embedding.
-/

set_option maxRecDepth 8192

/-- A wire byte. -/
abbrev Byte := Fin 256

/-- Truncating conversion to a byte, the semantics of Rust `as u8`. -/
def byte (n : Nat) : Byte := ⟨n % 256, Nat.mod_lt _ (by omega)⟩

/-- The `io::ErrorKind` classes distinguished by `handle_connect` when an
upstream dial fails (`src/server.rs` lines 206-212): the three kinds with a
dedicated reply code, and a catch-all for every other kind. -/
inductive DialErrKind where
  | connectionRefused
  | networkUnreachable
  | hostUnreachable
  | otherKind
  deriving DecidableEq

/-- The `std::io::Error` values the embedded code produces, by
`ErrorKind` and message; `eof` is the error of a read hitting end of
stream, `osError` the dial error propagated out of `handle_connect`. -/
inductive IOErr where
  | eof
  | invalidData (msg : String)
  | invalidInput (msg : String)
  | permissionDenied (msg : String)
  | osError (k : DialErrKind)
  | other (msg : String)
  deriving DecidableEq

/-- Result of a read: the parsed value with the unconsumed bytes, or an
error with the unconsumed bytes (so consumption is observable on failure). -/
abbrev ReadResult (α : Type) := Except (IOErr × List Byte) (α × List Byte)

/-- `tokio` `read_exact n`: succeed with the first `n` bytes when the stream
holds at least `n`, otherwise fail with EOF having drained the stream. -/
def read_exact (n : Nat) (s : List Byte) : ReadResult (List Byte) :=
  if n ≤ s.length then .ok (s.take n, s.drop n) else .error (.eof, [])

/-- `read_u16` big-endian, as `tokio`'s `read_u16`. -/
def read_u16 (s : List Byte) : ReadResult Nat :=
  match s with
  | b0 :: b1 :: rest => .ok (b0.val * 256 + b1.val, rest)
  | _ => .error (.eof, [])

/-- Big-endian encoding of a `u16`, as `tokio`'s `write_u16`. -/
def u16Bytes (p : Nat) : List Byte := [byte (p / 256), byte p]

-- SOCKS protocol constants (`src/protocol.rs` lines 9-41).
def SOCKS_VERSION : Nat := 5
def CMD_CONNECT : Nat := 1
def ATYP_IPV4 : Nat := 1
def ATYP_DOMAIN : Nat := 3
def ATYP_IPV6 : Nat := 4
def AUTH_NONE : Nat := 0x00
def AUTH_PASSWORD : Nat := 0x02
def REP_SUCCEEDED : Nat := 0
def REP_GENERAL_FAILURE : Nat := 1
def REP_CONNECTION_NOT_ALLOWED : Nat := 2
def REP_NETWORK_UNREACHABLE : Nat := 3
def REP_HOST_UNREACHABLE : Nat := 4
def REP_CONNECTION_REFUSED : Nat := 5
def REP_TTL_EXPIRED : Nat := 6
def REP_COMMAND_NOT_SUPPORTED : Nat := 7
def REP_ADDRESS_TYPE_NOT_SUPPORTED : Nat := 8
def AUTH_VERSION : Nat := 1
def AUTH_SUCCESS : Nat := 0
def AUTH_FAILURE : Nat := 1

/-- Continuation byte of a UTF-8 sequence: `0x80..=0xBF`. -/
def utf8Cont (b : Byte) : Bool := 0x80 ≤ b.val && b.val ≤ 0xBF

/-- Validity of a byte list as UTF-8, the check performed by Rust
`String::from_utf8` (standard table: ASCII, 2-byte `C2..DF`, 3-byte with the
`E0`/`ED` restrictions, 4-byte with the `F0`/`F4` restrictions). -/
def utf8Valid : List Byte → Bool
  | [] => true
  | b :: rest =>
    if b.val ≤ 0x7F then utf8Valid rest
    else if 0xC2 ≤ b.val && b.val ≤ 0xDF then
      match rest with
      | c1 :: r => utf8Cont c1 && utf8Valid r
      | [] => false
    else if b.val = 0xE0 then
      match rest with
      | c1 :: c2 :: r =>
        (0xA0 ≤ c1.val && c1.val ≤ 0xBF) && utf8Cont c2 && utf8Valid r
      | _ => false
    else if (0xE1 ≤ b.val && b.val ≤ 0xEC) || (0xEE ≤ b.val && b.val ≤ 0xEF) then
      match rest with
      | c1 :: c2 :: r => utf8Cont c1 && utf8Cont c2 && utf8Valid r
      | _ => false
    else if b.val = 0xED then
      match rest with
      | c1 :: c2 :: r =>
        (0x80 ≤ c1.val && c1.val ≤ 0x9F) && utf8Cont c2 && utf8Valid r
      | _ => false
    else if b.val = 0xF0 then
      match rest with
      | c1 :: c2 :: c3 :: r =>
        (0x90 ≤ c1.val && c1.val ≤ 0xBF) && utf8Cont c2 && utf8Cont c3 && utf8Valid r
      | _ => false
    else if 0xF1 ≤ b.val && b.val ≤ 0xF3 then
      match rest with
      | c1 :: c2 :: c3 :: r => utf8Cont c1 && utf8Cont c2 && utf8Cont c3 && utf8Valid r
      | _ => false
    else if b.val = 0xF4 then
      match rest with
      | c1 :: c2 :: c3 :: r =>
        (0x80 ≤ c1.val && c1.val ≤ 0x8F) && utf8Cont c2 && utf8Cont c3 && utf8Valid r
      | _ => false
    else false

/-- `String::from_utf8` on a byte vector: the same bytes when they are valid
UTF-8 (a Rust `String` is represented here by its UTF-8 bytes), else failure. -/
def string_from_utf8 (bs : List Byte) : Option (List Byte) :=
  if utf8Valid bs then some bs else none

/-- `SocksAddr` (`src/protocol.rs` lines 44-49); IPv4/IPv6 addresses by their
octets, a domain (a Rust `String`) by its UTF-8 bytes, ports as `u16` values. -/
inductive SocksAddr where
  | Ipv4 (addr : List Byte) (port : Nat)
  | Ipv6 (addr : List Byte) (port : Nat)
  | Domain (domain : List Byte) (port : Nat)
  deriving DecidableEq

/-- Representation invariants carried by the Rust types: IPv4/IPv6 octet
counts, ports below 2^16, and for a domain (a Rust `String`) valid UTF-8.
The only constraint not enforced by a Rust type is the 255-byte domain bound. -/
def SocksAddr.wf : SocksAddr → Prop
  | .Ipv4 a p => a.length = 4 ∧ p < 65536
  | .Ipv6 a p => a.length = 16 ∧ p < 65536
  | .Domain d p => d.length ≤ 255 ∧ utf8Valid d = true ∧ p < 65536

instance : DecidablePred SocksAddr.wf := by
  intro a
  cases a <;> simp only [SocksAddr.wf] <;> infer_instance

/-- `SocksAddr::read_from` (`src/protocol.rs` lines 52-85). -/
def SocksAddr.read_from (s : List Byte) : ReadResult SocksAddr :=
  match s with
  | [] => .error (.eof, [])
  | t :: rest =>
    if t.val = ATYP_IPV4 then
      match read_exact 4 rest with
      | .error e => .error e
      | .ok (a, r1) =>
        match read_u16 r1 with
        | .error e => .error e
        | .ok (port, r2) => .ok (.Ipv4 a port, r2)
    else if t.val = ATYP_IPV6 then
      match read_exact 16 rest with
      | .error e => .error e
      | .ok (a, r1) =>
        match read_u16 r1 with
        | .error e => .error e
        | .ok (port, r2) => .ok (.Ipv6 a port, r2)
    else if t.val = ATYP_DOMAIN then
      match rest with
      | [] => .error (.eof, [])
      | len :: r1 =>
        match read_exact len.val r1 with
        | .error e => .error e
        | .ok (d, r2) =>
          match string_from_utf8 d with
          | none => .error (.invalidData "Invalid domain name", r2)
          | some dom =>
            match read_u16 r2 with
            | .error e => .error e
            | .ok (port, r3) => .ok (.Domain dom port, r3)
    else .error (.invalidInput "Unsupported address type", rest)

/-- `SocksAddr::write_to` (`src/protocol.rs` lines 87-116): outcome together
with the bytes written before returning. -/
def SocksAddr.write_to : SocksAddr → Except IOErr Unit × List Byte
  | .Ipv4 a p => (.ok (), byte ATYP_IPV4 :: (a ++ u16Bytes p))
  | .Ipv6 a p => (.ok (), byte ATYP_IPV6 :: (a ++ u16Bytes p))
  | .Domain d p =>
    if d.length > 255 then (.error (.invalidInput "Domain too long"), [])
    else (.ok (), byte ATYP_DOMAIN :: byte d.length :: (d ++ u16Bytes p))

/-- `UserPassAuth` (`src/protocol.rs` lines 160-163): username and password
are Rust `String`s, represented by their UTF-8 bytes. -/
structure UserPassAuth where
  username : List Byte
  password : List Byte
  deriving DecidableEq

/-- `UserPassAuth::write_to` (`src/protocol.rs` lines 170-199): the auth
subversion byte is written first, then each field is length-checked just
before it is written. -/
def UserPassAuth.write_to (a : UserPassAuth) : Except IOErr Unit × List Byte :=
  let out0 := [byte AUTH_VERSION]
  if a.username.length > 255 then
    (.error (.invalidInput "Username too long"), out0)
  else
    let out1 := out0 ++ byte a.username.length :: a.username
    if a.password.length > 255 then
      (.error (.invalidInput "Password too long"), out1)
    else
      (.ok (), out1 ++ byte a.password.length :: a.password)

/-- `UserPassAuth::read_from` (`src/protocol.rs` lines 201-228). -/
def UserPassAuth.read_from (s : List Byte) : ReadResult UserPassAuth :=
  match s with
  | [] => .error (.eof, [])
  | v :: rest =>
    if v.val ≠ AUTH_VERSION then
      .error (.invalidData "Invalid authentication version", rest)
    else
      match rest with
      | [] => .error (.eof, [])
      | ulen :: r1 =>
        match read_exact ulen.val r1 with
        | .error e => .error e
        | .ok (ub, r2) =>
          match string_from_utf8 ub with
          | none => .error (.invalidData "Invalid username encoding", r2)
          | some uname =>
            match r2 with
            | [] => .error (.eof, [])
            | plen :: r3 =>
              match read_exact plen.val r3 with
              | .error e => .error e
              | .ok (pb, r4) =>
                match string_from_utf8 pb with
                | none => .error (.invalidData "Invalid password encoding", r4)
                | some pw => .ok (⟨uname, pw⟩, r4)

/-- `HandshakeRequest` (`src/protocol.rs` lines 140-143). -/
structure HandshakeRequest where
  version : Byte
  methods : List Byte
  deriving DecidableEq

/-- `HandshakeRequest::read_from` (`src/protocol.rs` lines 231-250). -/
def HandshakeRequest.read_from (s : List Byte) : ReadResult HandshakeRequest :=
  match s with
  | [] => .error (.eof, [])
  | v :: rest =>
    if v.val ≠ SOCKS_VERSION then
      .error (.invalidData "Unsupported SOCKS version", rest)
    else
      match rest with
      | [] => .error (.eof, [])
      | n :: r1 =>
        match read_exact n.val r1 with
        | .error e => .error e
        | .ok (ms, r2) => .ok (⟨v, ms⟩, r2)

/-- `Request` (`src/protocol.rs` lines 146-150). -/
structure Request where
  version : Byte
  command : Byte
  addr : SocksAddr
  deriving DecidableEq

/-- `Request::read_from` (`src/protocol.rs` lines 252-275): version check,
command byte, ignored reserved byte, then the address. -/
def Request.read_from (s : List Byte) : ReadResult Request :=
  match s with
  | [] => .error (.eof, [])
  | v :: rest =>
    if v.val ≠ SOCKS_VERSION then
      .error (.invalidData "Unsupported SOCKS version", rest)
    else
      match rest with
      | cmd :: _reserved :: r1 =>
        match SocksAddr.read_from r1 with
        | .error e => .error e
        | .ok (a, r2) => .ok (⟨v, cmd, a⟩, r2)
      | _ => .error (.eof, [])

/-- `Reply` (`src/protocol.rs` lines 153-157). -/
structure Reply where
  version : Nat
  reply : Nat
  addr : SocksAddr
  deriving DecidableEq

/-- `Reply::new` (`src/protocol.rs` lines 278-284): version fixed to 5. -/
def Reply.new (r : Nat) (a : SocksAddr) : Reply := ⟨SOCKS_VERSION, r, a⟩

/-- `Reply::write_to` (`src/protocol.rs` lines 286-296): version byte, reply
byte, reserved zero byte, then the bound address. -/
def Reply.write_to (rep : Reply) : Except IOErr Unit × List Byte :=
  let aw := rep.addr.write_to
  (aw.1, byte rep.version :: byte rep.reply :: byte 0 :: aw.2)

/-- The reply-code-to-message table of `Client::request_connection`
(`src/client.rs` lines 195-204): the first arm matches
`REP_GENERAL_FAILURE` (1), the remaining arms are the literals 2-7. -/
def replyStatusMsg (status : Byte) : String :=
  if status.val = REP_GENERAL_FAILURE then "General failure"
  else
    match status.val with
    | 2 => "Network unreachable"
    | 3 => "Host unreachable"
    | 4 => "Connection refused by destination"
    | 5 => "TTL expired"
    | 6 => "Command not supported / protocol error"
    | 7 => "Address type not supported"
    | _ => "Unknown error"

/-- The reply-reading half of `Client::request_connection`
(`src/client.rs` lines 182-240): read version, status and reserved bytes,
fail on a wrong version or a non-success status, then skip the bound
address field. -/
def request_connection_response (s : List Byte) : ReadResult Unit :=
  match s with
  | version :: status :: _reserved :: r1 =>
    if version.val ≠ SOCKS_VERSION then
      .error (.other "Invalid protocol version in response", r1)
    else if status.val ≠ REP_SUCCEEDED then
      .error (.other (replyStatusMsg status), r1)
    else
      match r1 with
      | [] => .error (.eof, [])
      | atyp :: r2 =>
        if atyp.val = 1 then
          match read_exact 4 r2 with
          | .error e => .error e
          | .ok (_, r3) =>
            match read_u16 r3 with
            | .error e => .error e
            | .ok (_, r4) => .ok ((), r4)
        else if atyp.val = 3 then
          match r2 with
          | [] => .error (.eof, [])
          | len :: r3 =>
            match read_exact len.val r3 with
            | .error e => .error e
            | .ok (_, r4) =>
              match read_u16 r4 with
              | .error e => .error e
              | .ok (_, r5) => .ok ((), r5)
        else if atyp.val = 4 then
          match read_exact 16 r2 with
          | .error e => .error e
          | .ok (_, r3) =>
            match read_u16 r3 with
            | .error e => .error e
            | .ok (_, r4) => .ok ((), r4)
        else .error (.other "Invalid address type in response", r2)
  | _ => .error (.eof, [])

/-- The semantic meaning of a SOCKS5 reply code or of one of the client's
error messages, used to compare the two. -/
inductive RepMeaning where
  | generalFailure
  | connectionNotAllowed
  | networkUnreachable
  | hostUnreachable
  | connectionRefused
  | ttlExpired
  | commandNotSupported
  | addressTypeNotSupported
  | unknown
  deriving DecidableEq

/-- Modelled from the spec: the RFC 1928 assignment of reply codes
(1 general failure, 2 connection not allowed, 3 network unreachable,
4 host unreachable, 5 connection refused, 6 TTL expired, 7 command not
supported, 8 address type not supported). -/
def rfc1928Meaning : Nat → RepMeaning
  | 1 => .generalFailure
  | 2 => .connectionNotAllowed
  | 3 => .networkUnreachable
  | 4 => .hostUnreachable
  | 5 => .connectionRefused
  | 6 => .ttlExpired
  | 7 => .commandNotSupported
  | 8 => .addressTypeNotSupported
  | _ => .unknown

/-- The meaning conveyed by each literal error message of
`Client::request_connection`. -/
def msgMeaning : String → RepMeaning
  | "General failure" => .generalFailure
  | "Network unreachable" => .networkUnreachable
  | "Host unreachable" => .hostUnreachable
  | "Connection refused by destination" => .connectionRefused
  | "TTL expired" => .ttlExpired
  | "Command not supported / protocol error" => .commandNotSupported
  | "Address type not supported" => .addressTypeNotSupported
  | _ => .unknown

deriving instance DecidableEq for Except

/-- Outcome of `tokio::net::lookup_host` in `handle_connect`
(`src/server.rs` lines 146-161): a first address exists, the iterator was
empty, or the lookup itself erred. -/
inductive ResolveOutcome where
  | ok
  | emptyResult
  | err
  deriving DecidableEq

/-- Outcome of `TcpStream::connect` and of the phases that follow it
(`src/server.rs` lines 176-218): on success, the `local_addr` introspection
result (already converted to a `SocksAddr`, `none` when introspection
failed) and the `copy_bidirectional` outcome; on failure, the dial error's
kind. -/
inductive DialOutcome where
  | ok (localAddr : Option SocksAddr) (relay : Except DialErrKind Unit)
  | err (k : DialErrKind)
  deriving DecidableEq

/-- The dial-error-to-reply-code map of `handle_connect`
(`src/server.rs` lines 207-212). -/
def dialErrorReplyCode (k : DialErrKind) : Nat :=
  match k with
  | .connectionRefused => REP_CONNECTION_REFUSED
  | .networkUnreachable => REP_NETWORK_UNREACHABLE
  | .hostUnreachable => REP_HOST_UNREACHABLE
  | _ => REP_NETWORK_UNREACHABLE

/-- Observable outcome of `handle_connect`: bytes written to the client,
whether an upstream dial was attempted, whether the relay phase was entered,
and the returned result. -/
structure ConnectResult where
  output : List Byte
  dialed : Bool
  relayEntered : Bool
  result : Except IOErr Unit
  deriving DecidableEq

/-- The dial phase of `handle_connect` (`src/server.rs` lines 176-218),
reached once a destination socket address exists. -/
def connectPhase (addr : SocksAddr) (dial : DialOutcome) : ConnectResult :=
  match dial with
  | .ok localAddr relay =>
    let bind_addr := localAddr.getD addr
    let w := (Reply.new REP_SUCCEEDED bind_addr).write_to
    match w.1 with
    | .error e => ⟨w.2, true, false, .error e⟩
    | .ok _ =>
      match relay with
      | .ok _ => ⟨w.2, true, true, .ok ()⟩
      | .error k => ⟨w.2, true, true, .error (.osError k)⟩
  | .err k =>
    let w := (Reply.new (dialErrorReplyCode k) addr).write_to
    match w.1 with
    | .error e => ⟨w.2, true, false, .error e⟩
    | .ok _ => ⟨w.2, true, false, .error (.osError k)⟩

/-- `handle_connect` (`src/server.rs` lines 140-219): domain targets go
through DNS resolution first (failure or an empty result replies
host-unreachable); IP targets convert directly (`to_socket_addr` is total on
them), then the dial phase runs. -/
def handle_connect (addr : SocksAddr) (res : ResolveOutcome)
    (dial : DialOutcome) : ConnectResult :=
  match addr with
  | .Domain _ _ =>
    match res with
    | .ok => connectPhase addr dial
    | .emptyResult =>
      let w := (Reply.new REP_HOST_UNREACHABLE addr).write_to
      match w.1 with
      | .error e => ⟨w.2, false, false, .error e⟩
      | .ok _ => ⟨w.2, false, false, .error (.other "Could not resolve domain")⟩
    | .err =>
      let w := (Reply.new REP_HOST_UNREACHABLE addr).write_to
      match w.1 with
      | .error e => ⟨w.2, false, false, .error e⟩
      | .ok _ => ⟨w.2, false, false, .error (.other "Could not resolve domain")⟩
  | _ => connectPhase addr dial

/-- Observable outcome of `handle_client`: bytes written to the client, the
unconsumed input bytes, whether an upstream dial was attempted, whether the
relay phase was entered, and the returned result. -/
structure HandlerResult where
  output : List Byte
  remaining : List Byte
  dialed : Bool
  relayEntered : Bool
  result : Except IOErr Unit
  deriving DecidableEq

/-- The credential check of `handle_client` (`src/server.rs` lines 94-101):
exact match of the pair against some allow-list entry, deny-all when no
allow-list is configured. -/
def authCheck (creds : Option (List (List Byte × List Byte)))
    (auth : UserPassAuth) : Bool :=
  match creds with
  | some cs => cs.any fun c => decide (c.1 = auth.username ∧ c.2 = auth.password)
  | none => false

/-- The connection-request phase of `handle_client`
(`src/server.rs` lines 124-137): decode the request, dispatch `CONNECT` to
`handle_connect`, reply command-not-supported (echoing the requested
address) and fail otherwise. -/
def requestPhase (input : List Byte) (res : ResolveOutcome)
    (dial : DialOutcome) : HandlerResult :=
  match Request.read_from input with
  | .error (e, rest) => ⟨[], rest, false, false, .error e⟩
  | .ok (req, rest) =>
    if req.command.val = CMD_CONNECT then
      let c := handle_connect req.addr res dial
      ⟨c.output, rest, c.dialed, c.relayEntered, c.result⟩
    else
      let w := (Reply.new REP_COMMAND_NOT_SUPPORTED req.addr).write_to
      match w.1 with
      | .error e => ⟨w.2, rest, false, false, .error e⟩
      | .ok _ => ⟨w.2, rest, false, false, .error (.other "Command not supported")⟩

/-- `handle_client` (`src/server.rs` lines 76-138): greeting, the
authentication decision, then the request phase. -/
def handle_client (auth_required : Bool)
    (credentials : Option (List (List Byte × List Byte)))
    (input : List Byte) (res : ResolveOutcome) (dial : DialOutcome) :
    HandlerResult :=
  match HandshakeRequest.read_from input with
  | .error (e, rest) => ⟨[], rest, false, false, .error e⟩
  | .ok (handshake, r1) =>
    if auth_required ∧ byte AUTH_PASSWORD ∈ handshake.methods then
      let chose := [byte SOCKS_VERSION, byte AUTH_PASSWORD]
      match UserPassAuth.read_from r1 with
      | .error (e, r2) => ⟨chose, r2, false, false, .error e⟩
      | .ok (auth, r2) =>
        if authCheck credentials auth then
          let r := requestPhase r2 res dial
          ⟨chose ++ [byte AUTH_VERSION, byte AUTH_SUCCESS] ++ r.output,
            r.remaining, r.dialed, r.relayEntered, r.result⟩
        else
          ⟨chose ++ [byte AUTH_VERSION, byte AUTH_FAILURE], r2, false, false,
            .error (.permissionDenied "Authentication failed")⟩
    else if auth_required then
      ⟨[byte SOCKS_VERSION, byte 0xFF], r1, false, false,
        .error (.other "No acceptable auth methods")⟩
    else if byte AUTH_NONE ∈ handshake.methods then
      let r := requestPhase r1 res dial
      ⟨[byte SOCKS_VERSION, byte AUTH_NONE] ++ r.output,
        r.remaining, r.dialed, r.relayEntered, r.result⟩
    else
      ⟨[byte SOCKS_VERSION, byte 0xFF], r1, false, false,
        .error (.other "No acceptable auth methods")⟩

/-- The wire form of a client greeting offering the method list `methods`:
version byte, method count (`as u8`), then the method bytes. -/
def greetingBytes (methods : List Byte) : List Byte :=
  byte SOCKS_VERSION :: byte methods.length :: methods

theorem byte_val {n : Nat} (h : n ≤ 255) : (byte n).val = n := by
  simp only [byte]
  omega

theorem read_exact_append (a b : List Byte) :
    read_exact a.length (a ++ b) = .ok (a, b) := by
  unfold read_exact
  rw [if_pos (by simp), List.take_left, List.drop_left]

theorem read_u16_append {p : Nat} (rest : List Byte) (h : p < 65536) :
    read_u16 (u16Bytes p ++ rest) = .ok (p, rest) := by
  have hp : (byte (p / 256)).val * 256 + (byte p).val = p := by
    simp only [byte]
    omega
  simp [u16Bytes, read_u16, hp]

/-- A well-formed address encodes without error. -/
theorem SocksAddr.write_ok (a : SocksAddr) (h : a.wf) :
    (SocksAddr.write_to a).1 = .ok () := by
  cases a with
  | Ipv4 o p => rfl
  | Ipv6 o p => rfl
  | Domain d p =>
    obtain ⟨hd, -, -⟩ := h
    simp [SocksAddr.write_to, Nat.not_lt.mpr hd]

/-- Round-trip with a remainder: decoding the encoding of a well-formed
address followed by arbitrary further bytes returns the address and leaves
exactly those further bytes. -/
theorem SocksAddr.read_write (a : SocksAddr) (rest : List Byte) (h : a.wf) :
    SocksAddr.read_from ((SocksAddr.write_to a).2 ++ rest) = .ok (a, rest) := by
  cases a with
  | Ipv4 o p =>
    obtain ⟨hlen, hp⟩ := h
    have h4 := read_exact_append o (u16Bytes p ++ rest)
    rw [hlen] at h4
    simp [SocksAddr.write_to, SocksAddr.read_from, byte, ATYP_IPV4, h4,
      read_u16_append rest hp]
  | Ipv6 o p =>
    obtain ⟨hlen, hp⟩ := h
    have h16 := read_exact_append o (u16Bytes p ++ rest)
    rw [hlen] at h16
    simp +decide [SocksAddr.write_to, SocksAddr.read_from, byte, ATYP_IPV4,
      ATYP_IPV6, h16, read_u16_append rest hp]
  | Domain d p =>
    obtain ⟨hd, hv, hp⟩ := h
    have hwrite : (SocksAddr.write_to (.Domain d p)).2 =
        byte ATYP_DOMAIN :: byte d.length :: (d ++ u16Bytes p) := by
      simp [SocksAddr.write_to, Nat.not_lt.mpr hd]
    have hread := read_exact_append d (u16Bytes p ++ rest)
    have hmod : d.length % 256 = d.length := by omega
    simp +decide [hwrite, SocksAddr.read_from, byte, ATYP_IPV4, ATYP_IPV6,
      ATYP_DOMAIN, hmod, hread, string_from_utf8, hv,
      read_u16_append rest hp]

/-- Round-trip with a remainder for the credential codec. -/
theorem UserPassAuth.read_write_creds (u p rest : List Byte)
    (hu : u.length ≤ 255) (hp : p.length ≤ 255)
    (hvu : utf8Valid u = true) (hvp : utf8Valid p = true) :
    UserPassAuth.read_from ((UserPassAuth.write_to ⟨u, p⟩).2 ++ rest) =
      .ok (⟨u, p⟩, rest) := by
  have hwrite : (UserPassAuth.write_to ⟨u, p⟩).2 =
      byte AUTH_VERSION :: byte u.length :: (u ++ (byte p.length :: p)) := by
    simp [UserPassAuth.write_to, Nat.not_lt.mpr hu, Nat.not_lt.mpr hp]
  have hru := read_exact_append u (byte p.length :: (p ++ rest))
  have hrp := read_exact_append p rest
  have hmu : u.length % 256 = u.length := by omega
  have hmp : p.length % 256 = p.length := by omega
  simp only [byte, hmp] at hru
  simp +decide [hwrite, UserPassAuth.read_from, byte, AUTH_VERSION, hmu, hmp,
    hru, hrp, string_from_utf8, hvu, hvp]

/-- Decoding a greeting (offered method list, then arbitrary further bytes)
recovers the method list and leaves exactly the further bytes. -/
theorem HandshakeRequest.read_greeting (methods rest : List Byte)
    (h : methods.length ≤ 255) :
    HandshakeRequest.read_from (greetingBytes methods ++ rest) =
      .ok (⟨byte SOCKS_VERSION, methods⟩, rest) := by
  have hrm := read_exact_append methods rest
  have hm : methods.length % 256 = methods.length := by omega
  simp +decide [greetingBytes, HandshakeRequest.read_from, byte, SOCKS_VERSION,
    hm, hrm]

/-- Claim C5: for every Address value (IPv4, IPv6, or a domain name of at
most 255 bytes), decoding the byte sequence produced by encoding it yields
the same value: `SocksAddr::read_from` applied to the output of
`SocksAddr::write_to` returns the original address (consuming the whole
encoding). -/
theorem socksAddr_roundtrip (a : SocksAddr) (h : a.wf) :
    SocksAddr.read_from (SocksAddr.write_to a).2 = .ok (a, []) := by
  simpa using SocksAddr.read_write a [] h

theorem socksAddr_roundtrip_witness :
    (SocksAddr.Domain [97, 98] 80).wf ∧
      SocksAddr.read_from (SocksAddr.write_to (.Domain [97, 98] 80)).2 =
        .ok (.Domain [97, 98] 80, []) :=
  ⟨by decide, socksAddr_roundtrip (.Domain [97, 98] 80) (by decide)⟩

/-- Claim C6: for every credential pair whose username and password each
encode to at most 255 bytes, decoding the byte sequence produced by encoding
the pair yields the same username and password. -/
theorem userPassAuth_roundtrip (u p : List Byte)
    (hu : u.length ≤ 255) (hp : p.length ≤ 255)
    (hvu : utf8Valid u = true) (hvp : utf8Valid p = true) :
    UserPassAuth.read_from (UserPassAuth.write_to ⟨u, p⟩).2 = .ok (⟨u, p⟩, []) := by
  simpa using UserPassAuth.read_write_creds u p [] hu hp hvu hvp

theorem userPassAuth_roundtrip_witness :
    ([117].length ≤ 255 ∧ [112].length ≤ 255 ∧
      utf8Valid [117] = true ∧ utf8Valid [112] = true) ∧
      UserPassAuth.read_from (UserPassAuth.write_to ⟨[117], [112]⟩).2 =
        .ok (⟨[117], [112]⟩, []) :=
  ⟨by decide, userPassAuth_roundtrip [117] [112] (by decide) (by decide)
    (by decide) (by decide)⟩

/-- Claim C9: for every input stream whose first byte is not 5, decoding the
greeting fails with the protocol-mismatch error, and the decoder leaves every
byte after the version byte unconsumed (it read only the version byte). -/
theorem handshake_bad_version (b : Byte) (rest : List Byte)
    (hb : b.val ≠ SOCKS_VERSION) :
    HandshakeRequest.read_from (b :: rest) =
      .error (.invalidData "Unsupported SOCKS version", rest) := by
  simp [HandshakeRequest.read_from, hb]

theorem handshake_bad_version_witness :
    ((6 : Byte).val ≠ SOCKS_VERSION) ∧
      HandshakeRequest.read_from [6, 1, 0] =
        .error (.invalidData "Unsupported SOCKS version", [1, 0]) :=
  ⟨by decide, handshake_bad_version 6 [1, 0] (by decide)⟩

/-- Claim C2 (counterexample): encoding credentials whose username is 256
bytes long fails with the value-too-large error, but one byte (the RFC 1929
auth subversion byte, written before the length check) has already been
written — not zero bytes as claimed. -/
theorem userPassAuth_partial_output_counterexample :
    (UserPassAuth.write_to ⟨List.replicate 256 97, []⟩).1 =
        .error (.invalidInput "Username too long") ∧
      (UserPassAuth.write_to ⟨List.replicate 256 97, []⟩).2 = [byte AUTH_VERSION] ∧
      (UserPassAuth.write_to ⟨List.replicate 256 97, []⟩).2 ≠ [] := by
  refine ⟨?_, ?_, ?_⟩ <;> simp [UserPassAuth.write_to]

/-- Claim C2 (amended): encoding a domain name longer than 255 bytes fails
with a value-too-large error having written zero bytes; encoding credentials
with an over-long field fails with a value-too-large error before any byte of
the offending field is written, but after the auth subversion byte — an
over-long username leaves exactly that one byte written, an over-long
password leaves the subversion byte, the username length byte and the
username written. -/
theorem encode_too_large_outputs :
    (∀ d p, d.length > 255 →
      SocksAddr.write_to (.Domain d p) =
        (.error (.invalidInput "Domain too long"), [])) ∧
    (∀ u pw, u.length > 255 →
      UserPassAuth.write_to ⟨u, pw⟩ =
        (.error (.invalidInput "Username too long"), [byte AUTH_VERSION])) ∧
    (∀ u pw, u.length ≤ 255 → pw.length > 255 →
      UserPassAuth.write_to ⟨u, pw⟩ =
        (.error (.invalidInput "Password too long"),
          byte AUTH_VERSION :: byte u.length :: u)) := by
  refine ⟨fun d p hd => ?_, fun u pw hu => ?_, fun u pw hu hpw => ?_⟩
  · simp [SocksAddr.write_to, hd]
  · simp [UserPassAuth.write_to, hu]
  · simp [UserPassAuth.write_to, Nat.not_lt.mpr hu, hpw]

theorem encode_too_large_outputs_witness :
    ((List.replicate 256 (97 : Byte)).length > 255 ∧
      SocksAddr.write_to (.Domain (List.replicate 256 97) 80) =
        (.error (.invalidInput "Domain too long"), [])) ∧
    UserPassAuth.write_to ⟨List.replicate 256 97, [112]⟩ =
      (.error (.invalidInput "Username too long"), [byte AUTH_VERSION]) ∧
    UserPassAuth.write_to ⟨[117], List.replicate 256 97⟩ =
      (.error (.invalidInput "Password too long"),
        byte AUTH_VERSION :: byte [117].length :: [117]) :=
  ⟨⟨by simp, encode_too_large_outputs.1 (List.replicate 256 97) 80 (by simp)⟩,
    encode_too_large_outputs.2.1 (List.replicate 256 97) [112] (by simp),
    encode_too_large_outputs.2.2 [117] (List.replicate 256 97) (by simp) (by simp)⟩

/-- Claim C1 (code bug): the client's reply-code-to-error mapping in
`request_connection` is shifted by one against the RFC 1928 assignment.  At
the concrete reply `[0x05, 0x03, 0x00]` — code 3, network unreachable per
the RFC — the client fails with the message "Host unreachable"; the code's
meaning for every code from 2 to 8 is the RFC meaning of the next code
(code 8 falling through to "Unknown error"), while code 1 agrees. -/
theorem reply_meaning_shifted :
    request_connection_response [byte 5, byte 3, byte 0] =
        .error (.other "Host unreachable", []) ∧
      rfc1928Meaning 3 = .networkUnreachable ∧
      msgMeaning (replyStatusMsg (byte 3)) = .hostUnreachable ∧
      msgMeaning (replyStatusMsg (byte 3)) ≠ rfc1928Meaning 3 ∧
      msgMeaning (replyStatusMsg (byte 1)) = rfc1928Meaning 1 ∧
      (∀ c : Nat, 2 ≤ c → c ≤ 7 →
        msgMeaning (replyStatusMsg (byte c)) = rfc1928Meaning (c + 1)) ∧
      (∀ c : Nat, 2 ≤ c → c ≤ 8 →
        msgMeaning (replyStatusMsg (byte c)) ≠ rfc1928Meaning c) := by
  refine ⟨by decide, by decide, by decide, by decide, by decide, ?_, ?_⟩ <;>
    · intro c h2 h8
      interval_cases c <;> decide

theorem read_exact_ok_length {n : Nat} {s out rest : List Byte}
    (h : read_exact n s = .ok (out, rest)) : out.length = n := by
  unfold read_exact at h
  split at h
  · rename_i hle
    simp only [Except.ok.injEq, Prod.mk.injEq] at h
    obtain ⟨ho, -⟩ := h
    subst ho
    simp only [List.length_take]
    omega
  · simp at h

/-- Claim C10: every address successfully returned by `SocksAddr::read_from`
carries a domain of at most 255 bytes (the wire length field is one byte),
and therefore re-encoding any successfully decoded address with
`SocksAddr::write_to` never fails. -/
theorem decoded_addr_reencodable (s rest : List Byte) (a : SocksAddr)
    (h : SocksAddr.read_from s = .ok (a, rest)) :
    (∀ d p, a = .Domain d p → d.length ≤ 255) ∧
      (SocksAddr.write_to a).1 = .ok () := by
  cases s with
  | nil => simp [SocksAddr.read_from] at h
  | cons t r =>
    simp only [SocksAddr.read_from] at h
    split_ifs at h with h1 h2 h3
    · rcases hre : read_exact 4 r with e | ⟨o, r1⟩
      · simp [hre] at h
      · simp only [hre] at h
        rcases hru : read_u16 r1 with e | ⟨port, r2⟩
        · simp [hru] at h
        · simp only [hru, Except.ok.injEq, Prod.mk.injEq] at h
          obtain ⟨ha, -⟩ := h
          subst ha
          refine ⟨fun d p hdp => ?_, rfl⟩
          cases hdp
    · rcases hre : read_exact 16 r with e | ⟨o, r1⟩
      · simp [hre] at h
      · simp only [hre] at h
        rcases hru : read_u16 r1 with e | ⟨port, r2⟩
        · simp [hru] at h
        · simp only [hru, Except.ok.injEq, Prod.mk.injEq] at h
          obtain ⟨ha, -⟩ := h
          subst ha
          refine ⟨fun d p hdp => ?_, rfl⟩
          cases hdp
    · cases r with
      | nil => simp at h
      | cons len r1 =>
        rcases hre : read_exact len.val r1 with e | ⟨d, r2⟩
        · simp [hre] at h
        · simp only [hre] at h
          rcases hsf : string_from_utf8 d with - | dom
          · simp [hsf] at h
          · simp only [hsf] at h
            rcases hru : read_u16 r2 with e | ⟨port, r3⟩
            · simp [hru] at h
            · simp only [hru, Except.ok.injEq, Prod.mk.injEq] at h
              obtain ⟨ha, -⟩ := h
              subst ha
              have hdd : dom = d := by
                simp only [string_from_utf8] at hsf
                split at hsf
                · exact (Option.some.injEq d dom).mp hsf |>.symm
                · cases hsf
              have hlen : d.length = len.val := read_exact_ok_length hre
              have hlt := len.isLt
              have hb : dom.length ≤ 255 := by
                rw [hdd, hlen]; omega
              refine ⟨fun d' p' hdp => ?_, ?_⟩
              · injection hdp with hd1 hd2
                subst hd1
                exact hb
              · simp [SocksAddr.write_to, Nat.not_lt.mpr hb]

theorem decoded_addr_reencodable_witness :
    SocksAddr.read_from [3, 2, 97, 98, 0, 80] = .ok (.Domain [97, 98] 80, []) ∧
      ((∀ d p, SocksAddr.Domain [97, 98] 80 = .Domain d p → d.length ≤ 255) ∧
        (SocksAddr.write_to (.Domain [97, 98] 80)).1 = .ok ()) :=
  ⟨by decide,
    decoded_addr_reencodable [3, 2, 97, 98, 0, 80] [] (.Domain [97, 98] 80)
      (by decide)⟩

/-- Claim C4: for every decoded connection request whose command byte is not
CONNECT (1), the server writes a reply with code 7 (command not supported)
echoing the requested address in the bound-address field, never dials any
upstream connection, and aborts the handler with an error. -/
theorem command_not_supported_reply (cmd : Byte) (addr : SocksAddr)
    (rest : List Byte) (res : ResolveOutcome) (dial : DialOutcome)
    (hwf : addr.wf) (hcmd : cmd.val ≠ CMD_CONNECT) :
    requestPhase (byte SOCKS_VERSION :: cmd :: byte 0 ::
        ((SocksAddr.write_to addr).2 ++ rest)) res dial =
      ⟨((Reply.new REP_COMMAND_NOT_SUPPORTED addr).write_to).2, rest, false,
        false, .error (.other "Command not supported")⟩ := by
  have hread : Request.read_from (byte SOCKS_VERSION :: cmd :: byte 0 ::
      ((SocksAddr.write_to addr).2 ++ rest)) =
      .ok (⟨byte SOCKS_VERSION, cmd, addr⟩, rest) := by
    simp +decide [Request.read_from, byte, SOCKS_VERSION,
      SocksAddr.read_write addr rest hwf]
  have hw : ((Reply.new REP_COMMAND_NOT_SUPPORTED addr).write_to).1 = .ok () := by
    simp [Reply.write_to, Reply.new, SocksAddr.write_ok addr hwf]
  have hcmd1 : ¬(cmd.val = 1) := by simpa [CMD_CONNECT] using hcmd
  simp [requestPhase, hread, hcmd1, CMD_CONNECT, hw]

theorem command_not_supported_reply_witness :
    ((SocksAddr.Ipv4 [127, 0, 0, 1] 80).wf ∧ (2 : Byte).val ≠ CMD_CONNECT) ∧
      requestPhase (byte SOCKS_VERSION :: (2 : Byte) :: byte 0 ::
          ((SocksAddr.write_to (.Ipv4 [127, 0, 0, 1] 80)).2 ++ [])) .ok
          (.err .otherKind) =
        ⟨((Reply.new REP_COMMAND_NOT_SUPPORTED (.Ipv4 [127, 0, 0, 1] 80)).write_to).2,
          [], false, false, .error (.other "Command not supported")⟩ :=
  ⟨⟨by decide, by decide⟩,
    command_not_supported_reply 2 (.Ipv4 [127, 0, 0, 1] 80) [] .ok
      (.err .otherKind) (by decide) (by decide)⟩

/-- Claim C7: when dialing the resolved target fails, the server maps the
dial error to a reply code (connection refused to 5, network unreachable
to 3, host unreachable to 4, anything else to 3), writes a reply carrying
that code, and aborts without entering the relay phase. -/
theorem dial_failure_reply (addr : SocksAddr) (res : ResolveOutcome)
    (k : DialErrKind) (hwf : addr.wf)
    (hres : ∀ d p, addr = .Domain d p → res = .ok) :
    (handle_connect addr res (.err k) =
      ⟨((Reply.new (dialErrorReplyCode k) addr).write_to).2, true, false,
        .error (.osError k)⟩) ∧
      dialErrorReplyCode .connectionRefused = REP_CONNECTION_REFUSED ∧
      dialErrorReplyCode .networkUnreachable = REP_NETWORK_UNREACHABLE ∧
      dialErrorReplyCode .hostUnreachable = REP_HOST_UNREACHABLE ∧
      dialErrorReplyCode .otherKind = REP_NETWORK_UNREACHABLE := by
  refine ⟨?_, rfl, rfl, rfl, rfl⟩
  have hw : ((Reply.new (dialErrorReplyCode k) addr).write_to).1 = .ok () := by
    simp [Reply.write_to, Reply.new, SocksAddr.write_ok addr hwf]
  cases addr with
  | Domain d p =>
    rw [hres d p rfl]
    simp [handle_connect, connectPhase, hw]
  | Ipv4 o p => simp [handle_connect, connectPhase, hw]
  | Ipv6 o p => simp [handle_connect, connectPhase, hw]

theorem dial_failure_reply_witness :
    ((SocksAddr.Ipv4 [10, 0, 0, 1] 443).wf ∧
      (∀ d p, SocksAddr.Ipv4 [10, 0, 0, 1] 443 = .Domain d p →
        ResolveOutcome.ok = .ok)) ∧
      (handle_connect (.Ipv4 [10, 0, 0, 1] 443) .ok (.err .connectionRefused) =
        ⟨((Reply.new (dialErrorReplyCode .connectionRefused)
            (.Ipv4 [10, 0, 0, 1] 443)).write_to).2, true, false,
          .error (.osError .connectionRefused)⟩) ∧
      dialErrorReplyCode .connectionRefused = REP_CONNECTION_REFUSED ∧
      dialErrorReplyCode .networkUnreachable = REP_NETWORK_UNREACHABLE ∧
      dialErrorReplyCode .hostUnreachable = REP_HOST_UNREACHABLE ∧
      dialErrorReplyCode .otherKind = REP_NETWORK_UNREACHABLE :=
  ⟨⟨by decide, fun _ _ h => by cases h⟩,
    dial_failure_reply (.Ipv4 [10, 0, 0, 1] 443) .ok .connectionRefused
      (by decide) (fun _ _ h => by cases h)⟩

/-- Claim C8: when authentication is required and the peer's greeting does
not offer username/password, and likewise when authentication is not
required and the greeting does not offer no-auth, the server writes exactly
the two bytes `[0x05, 0xFF]` and aborts with an error, leaving the bytes
after the greeting unconsumed (it never decodes a connection request) and
never dialing upstream. -/
theorem no_acceptable_method_reply (auth_required : Bool)
    (creds : Option (List (List Byte × List Byte)))
    (methods rest : List Byte) (res : ResolveOutcome) (dial : DialOutcome)
    (hm : methods.length ≤ 255)
    (hcase : (auth_required = true ∧ byte AUTH_PASSWORD ∉ methods) ∨
      (auth_required = false ∧ byte AUTH_NONE ∉ methods)) :
    handle_client auth_required creds (greetingBytes methods ++ rest) res dial =
      ⟨[byte SOCKS_VERSION, byte 0xFF], rest, false, false,
        .error (.other "No acceptable auth methods")⟩ := by
  have hg := HandshakeRequest.read_greeting methods rest hm
  rcases hcase with ⟨ha, hnp⟩ | ⟨ha, hnn⟩
  · subst ha
    simp [handle_client, hg, hnp]
  · subst ha
    simp [handle_client, hg, hnn]

theorem no_acceptable_method_reply_witness :
    ([(0 : Byte)].length ≤ 255 ∧
      (true = true ∧ byte AUTH_PASSWORD ∉ [(0 : Byte)])) ∧
      handle_client true none (greetingBytes [0] ++ [9, 9]) .ok
          (.err .otherKind) =
        ⟨[byte SOCKS_VERSION, byte 0xFF], [9, 9], false, false,
          .error (.other "No acceptable auth methods")⟩ :=
  ⟨⟨by decide, by decide⟩,
    no_acceptable_method_reply true none [0] [9, 9] .ok (.err .otherKind)
      (by decide) (.inl ⟨rfl, by decide⟩)⟩

/-- Claim C3: with authentication required and a greeting offering the
username/password method, a submitted credential pair matching no entry of
the allow-list (or with no allow-list configured) makes the server reply
exactly `[0x01, 0x01]` after its method choice and abort with an
authentication-failed error, leaving the bytes after the auth message
unconsumed (no connection request is read) and never dialing; a pair
matching an allow-list entry exactly makes it reply `[0x01, 0x00]` and
proceed to the request phase. -/
theorem auth_allowlist_decision (methods u p rest : List Byte)
    (creds : Option (List (List Byte × List Byte)))
    (res : ResolveOutcome) (dial : DialOutcome)
    (hm : methods.length ≤ 255) (hpw : byte AUTH_PASSWORD ∈ methods)
    (hu : u.length ≤ 255) (hp : p.length ≤ 255)
    (hvu : utf8Valid u = true) (hvp : utf8Valid p = true) :
    ((creds = none ∨
        ∀ cs, creds = some cs → ∀ c ∈ cs, ¬(c.1 = u ∧ c.2 = p)) →
      handle_client true creds
          (greetingBytes methods ++ (UserPassAuth.write_to ⟨u, p⟩).2 ++ rest)
          res dial =
        ⟨[byte SOCKS_VERSION, byte AUTH_PASSWORD, byte AUTH_VERSION,
            byte AUTH_FAILURE], rest, false, false,
          .error (.permissionDenied "Authentication failed")⟩) ∧
    (∀ cs, creds = some cs → (u, p) ∈ cs →
      handle_client true creds
          (greetingBytes methods ++ (UserPassAuth.write_to ⟨u, p⟩).2 ++ rest)
          res dial =
        ⟨[byte SOCKS_VERSION, byte AUTH_PASSWORD, byte AUTH_VERSION,
            byte AUTH_SUCCESS] ++ (requestPhase rest res dial).output,
          (requestPhase rest res dial).remaining,
          (requestPhase rest res dial).dialed,
          (requestPhase rest res dial).relayEntered,
          (requestPhase rest res dial).result⟩) := by
  have hg := HandshakeRequest.read_greeting methods
    ((UserPassAuth.write_to ⟨u, p⟩).2 ++ rest) hm
  have hauth := UserPassAuth.read_write_creds u p rest hu hp hvu hvp
  constructor
  · intro hno
    have hac : authCheck creds ⟨u, p⟩ = false := by
      rcases hno with hn | hall
      · subst hn; rfl
      · cases creds with
        | none => rfl
        | some cs =>
          simp only [authCheck, List.any_eq_false]
          intro c hc
          simpa using hall cs rfl c hc
    simp [handle_client, hg, hauth, hpw, hac]
  · intro cs hcs hmem
    subst hcs
    have hac : authCheck (some cs) ⟨u, p⟩ = true := by
      simp only [authCheck, List.any_eq_true]
      exact ⟨(u, p), hmem, by simp⟩
    simp [handle_client, hg, hauth, hpw, hac]

theorem auth_allowlist_decision_witness :
    handle_client true none
        (greetingBytes [0, 2] ++ (UserPassAuth.write_to ⟨[117], [119]⟩).2 ++
          [9]) .ok (.err .otherKind) =
      ⟨[byte SOCKS_VERSION, byte AUTH_PASSWORD, byte AUTH_VERSION,
          byte AUTH_FAILURE], [9], false, false,
        .error (.permissionDenied "Authentication failed")⟩ ∧
    handle_client true (some [([117], [112])])
        (greetingBytes [0, 2] ++ (UserPassAuth.write_to ⟨[117], [112]⟩).2 ++
          [9]) .ok (.err .otherKind) =
      ⟨[byte SOCKS_VERSION, byte AUTH_PASSWORD, byte AUTH_VERSION,
          byte AUTH_SUCCESS] ++ (requestPhase [9] .ok (.err .otherKind)).output,
        (requestPhase [9] .ok (.err .otherKind)).remaining,
        (requestPhase [9] .ok (.err .otherKind)).dialed,
        (requestPhase [9] .ok (.err .otherKind)).relayEntered,
        (requestPhase [9] .ok (.err .otherKind)).result⟩ :=
  ⟨(auth_allowlist_decision [0, 2] [117] [119] [9] none .ok (.err .otherKind)
      (by decide) (by decide) (by decide) (by decide) (by decide)
      (by decide)).1 (.inl rfl),
    (auth_allowlist_decision [0, 2] [117] [112] [9] (some [([117], [112])])
      .ok (.err .otherKind) (by decide) (by decide) (by decide) (by decide)
      (by decide) (by decide)).2 [([117], [112])] rfl (by decide)⟩
